import Mathlib

/-!
Verification development for the synthetic health-insurance claims dataset
generators (two script variants: a "Claude" variant,
`generate-claude-historical-insurance-claim-dataset.py`, and a "Gemini"
variant, `generate-gemini-historical-insurance-claim-dataset.py`).

The scripts draw every random quantity from a single seeded pseudo-random
source.  The shallow embedding makes that source explicit: each random call
of the scripts corresponds to one field of a draw record.  Integer draws
`randint(a, b)` are embedded as `a + r % (b - a + 1)`; `random.choice(xs)`
as indexing with an arbitrary index reduced mod the list length;
`random.random()` and `random.uniform(a, b)` as rational parameters, with
the interval constraint `0 ≤ u < 1` stated as a hypothesis where a theorem
needs it; `random.choices(xs, weights)` as inverse-CDF selection over the
cumulative weights.  Floating-point arithmetic of the scripts is embedded
over `ℚ`; the constants involved are exact in both representations and no
property proved here depends on tie behaviour of `round`.

Monetary rounding `round(x, 2)` and `round(x, 3)` become `round2`/`round3`
below.  Dates are embedded as integer day numbers.  Cosmetic description
columns (human-readable text looked up from the code tables, and
faker-generated address/contact text) are either omitted or taken as opaque
outputs of the seeded source; per the design they are not used by the
probability model.
-/

/-- Embedding of the scripts' `round(x, 2)`: round to two decimal places. -/
def round2 (x : ℚ) : ℚ := ((round (x * 100) : ℤ) : ℚ) / 100

/-- Embedding of the scripts' `round(x, 3)`: round to three decimal places. -/
def round3 (x : ℚ) : ℚ := ((round (x * 1000) : ℤ) : ℚ) / 1000

/-- Embedding of `random.uniform(a, b)`: `a + (b - a) * u` with `u` the
underlying `random.random()` draw. -/
def uniformQ (a b u : ℚ) : ℚ := a + (b - a) * u

/-- Embedding of `random.choice(xs)`: select an arbitrary element, the
randomness being the index `i` (reduced modulo the length). -/
def choiceL {α : Type} (l : List α) (d : α) (i : ℕ) : α := l.getD (i % l.length) d

/-- Embedding of `random.randint(a, b)` over day numbers (both bounds
inclusive, `a ≤ b` in every use below). -/
def randintZ (a b : ℤ) (r : ℕ) : ℤ := a + ((r % ((b - a + 1).toNat) : ℕ) : ℤ)

/-- Embedding of `random.randint(a, b)` on naturals. -/
def randintN (a b : ℕ) (r : ℕ) : ℕ := a + r % (b + 1 - a)

/-- Embedding of a single weighted draw, `random.choices(xs, weights)[0]` /
`np.random.choice(xs, p=weights)`: inverse-CDF selection.  `u` is the
uniform draw scaled to the total weight; if `u` falls beyond the cumulative
total the last element is returned, matching bisection on the cumulative
weight table. -/
def weightedPick {α : Type} (l : List (α × ℚ)) (d : α) (u : ℚ) : α :=
  match l with
  | [] => d
  | (x, w) :: rest => if u < w then x else weightedPick rest x (u - w)

/-- Assoc-list lookup with default, embedding `dict.get(key, default)`. -/
def lookupD {α : Type} (l : List (String × α)) (k : String) (d : α) : α :=
  ((l.find? (fun p => p.1 == k)).map Prod.snd).getD d

/-- Assoc-list lookup without default, embedding `dict.get(key)` (returns
`None` on a miss). -/
def lookupOpt {α : Type} (l : List (String × α)) (k : String) : Option α :=
  (l.find? (fun p => p.1 == k)).map Prod.snd

/-- Embedding of `str(n).zfill(w)`: decimal digits left-padded with zeros. -/
def zfill (w : ℕ) (n : ℕ) : String :=
  let s := toString n
  String.mk (List.replicate (w - s.length) '0') ++ s

theorem weightedPick_mem {α : Type} :
    ∀ (l : List (α × ℚ)) (d : α) (u : ℚ), l ≠ [] →
      weightedPick l d u ∈ l.map Prod.fst := by
  intro l
  induction l with
  | nil => intro d u h; exact absurd rfl h
  | cons hd tl ih =>
      intro d u _
      obtain ⟨x, w⟩ := hd
      by_cases hu : u < w
      · simp [weightedPick, hu]
      · cases tl with
        | nil => simp [weightedPick, hu]
        | cons hd2 tl2 =>
            have := ih x (u - w) (by simp)
            simp only [weightedPick, if_neg hu]
            simp only [List.map_cons] at this ⊢
            exact List.mem_cons_of_mem _ this

theorem choiceL_mem {α : Type} (l : List α) (d : α) (i : ℕ) (h : l ≠ []) :
    choiceL l d i ∈ l := by
  have hlen : 0 < l.length := List.length_pos.mpr h
  have hidx : i % l.length < l.length := Nat.mod_lt _ hlen
  rw [choiceL, List.getD_eq_getElem l d hidx]
  exact List.getElem_mem hidx

theorem round2_le (x : ℚ) : round2 x ≤ x + 1 / 200 := by
  rw [round2, round_eq]
  have h := Int.floor_le (x * 100 + 1 / 2)
  have : ((⌊x * 100 + 1 / 2⌋ : ℤ) : ℚ) / 100 ≤ (x * 100 + 1 / 2) / 100 := by
    apply div_le_div_of_nonneg_right h
    norm_num
  calc ((⌊x * 100 + 1 / 2⌋ : ℤ) : ℚ) / 100 ≤ (x * 100 + 1 / 2) / 100 := this
    _ = x + 1 / 200 := by ring

theorem lt_round2 (x : ℚ) : x - 1 / 200 < round2 x := by
  rw [round2, round_eq]
  have h := Int.sub_one_lt_floor (x * 100 + 1 / 2)
  have : (x * 100 + 1 / 2 - 1) / 100 < ((⌊x * 100 + 1 / 2⌋ : ℤ) : ℚ) / 100 := by
    apply div_lt_div_of_pos_right h
    norm_num
  calc x - 1 / 200 = (x * 100 + 1 / 2 - 1) / 100 := by ring
    _ < ((⌊x * 100 + 1 / 2⌋ : ℤ) : ℚ) / 100 := this

/-- `round2` always produces an integer number of hundredths. -/
theorem round2_cents (x : ℚ) : ∃ k : ℤ, round2 x = (k : ℚ) / 100 :=
  ⟨round (x * 100), rfl⟩

/-- `round2` is the identity on exact hundredths. -/
theorem round2_int_div (k : ℤ) : round2 ((k : ℚ) / 100) = (k : ℚ) / 100 := by
  rw [round2]
  have : ((k : ℚ) / 100) * 100 = (k : ℚ) := by
    field_simp
  rw [this, round_intCast]

theorem round2_pos (x : ℚ) (h : 1 / 100 ≤ x) : 0 < round2 x := by
  have := lt_round2 x
  linarith

namespace Claude

/-!
Embedding of `generate-claude-historical-insurance-claim-dataset.py`.
The reference catalogs keep only the code keys; the human-readable
description values of the source dictionaries are cosmetic lookups (per the
design they are never used by the probability model) and are omitted.
-/

/-- Keys of the `diagnosis_codes` dictionary (ICD-10 codes), source order. -/
def diagnosis_keys : List String :=
  ["E11.9", "I10", "J45.909", "M54.5", "F41.9", "F32.9", "K21.9", "M17.9",
   "J40", "N39.0", "H40.9", "E78.5", "I25.10", "G47.00", "G43.909", "J02.9",
   "J01.90", "M25.511", "M25.512", "M79.604", "M79.605", "M79.621",
   "M79.622", "R10.9", "R07.9", "R51", "Z00.00", "Z00.129", "Z23", "Z12.11",
   "Z12.31"]

/-- Keys of the `procedure_codes` dictionary (CPT codes), source order. -/
def procedure_keys : List String :=
  ["99213", "99214", "99203", "99204", "80053", "85025", "82607", "80061",
   "71045", "71046", "72100", "70450", "93000", "94640", "97110", "99385",
   "99386", "99395", "99396", "90471", "90686", "90715", "99243", "99244",
   "96372", "99283", "99284", "99285", "29125", "29515", "45378", "45380",
   "77067", "77066"]

/-- Keys of the `revenue_codes` dictionary, source order. -/
def revenue_keys : List String :=
  ["0120", "0250", "0270", "0300", "0320", "0370", "0420", "0450", "0510",
   "0636", "0260", "0410", "0610", "0730", "0921"]

/-- Keys of the `place_of_service_codes` dictionary, source order. -/
def place_of_service_keys : List String :=
  ["11", "21", "22", "23", "24", "31", "32", "33", "41", "50", "65", "71",
   "72", "20", "12", "81"]

/-- Keys of the `denial_reasons` dictionary (the denial-reason catalog),
source order. -/
def denial_reason_keys : List String :=
  ["A1", "A2", "A3", "A4", "A5", "A6", "A7", "A8",
   "B1", "B2", "B3", "B4", "B5", "B6", "B7", "B8",
   "C1", "C2", "C3", "C4",
   "D1", "D2", "D3", "D4",
   "E1", "E2", "E3", "E4", "E5", "E6", "E7", "E8", "E9", "E10", "E11",
   "E12", "E13", "E14", "E15",
   "F1", "F2", "F3", "F4", "F5", "F6", "F7", "F8"]

/-- The `denial_categories` grouping, source (dict insertion) order. -/
def denial_categories : List (String × List String) :=
  [("administrative", ["A1", "A2", "A3", "A4", "A5", "A6", "A7", "A8"]),
   ("excluded_service", ["B1", "B2", "B3", "B4", "B5", "B6", "B7", "B8"]),
   ("no_prior_auth", ["C1", "C2", "C3", "C4"]),
   ("not_medically_necessary", ["D1", "D2", "D3", "D4"]),
   ("other", ["E1", "E2", "E3", "E4", "E5", "E6", "E7", "E8", "E9", "E10",
              "E11", "E12", "E13", "E14", "E15"]),
   ("remaining", ["F1", "F2", "F3", "F4", "F5", "F6", "F7", "F8"])]

/-- The inverted `category_for_denial_code` lookup (each code appears in
exactly one category, so first-match equals the dict built by the source). -/
def category_for_denial_code (c : String) : Option String :=
  (denial_categories.find? (fun p => p.2.contains c)).map Prod.fst

/-- The `specialties` table: name and `denial_modifier`, source order. -/
def specialties : List (String × ℚ) :=
  [("Family Medicine", 9/10), ("Internal Medicine", 1), ("Cardiology", 12/10),
   ("Dermatology", 11/10), ("Orthopedics", 13/10), ("Neurology", 12/10),
   ("Pediatrics", 8/10), ("Obstetrics", 12/10), ("Gynecology", 1),
   ("Psychiatry", 11/10), ("Oncology", 13/10), ("Radiology", 11/10),
   ("Urology", 1), ("Gastroenterology", 11/10), ("Endocrinology", 1),
   ("Nephrology", 12/10), ("Pulmonology", 11/10), ("Rheumatology", 12/10),
   ("Allergy & Immunology", 9/10), ("Emergency Medicine", 1),
   ("Physical Medicine & Rehabilitation", 13/10), ("Infectious Disease", 1),
   ("General Surgery", 12/10), ("Vascular Surgery", 13/10),
   ("Plastic Surgery", 14/10)]

/-- The `payer_info` table: name, type and `denial_modifier`, source order. -/
def payer_info : List (String × String × ℚ) :=
  [("Blue Cross Blue Shield", "Commercial", 1),
   ("UnitedHealthcare", "Commercial", 12/10),
   ("Aetna", "Commercial", 11/10),
   ("Cigna", "Commercial", 13/10),
   ("Humana", "Commercial", 1),
   ("Kaiser Permanente", "Commercial", 9/10),
   ("Medicare", "Medicare", 8/10),
   ("Medicare Advantage", "Medicare", 11/10),
   ("Medicaid", "Medicaid", 12/10),
   ("Centene", "Commercial", 11/10),
   ("Molina Healthcare", "Commercial", 12/10),
   ("Anthem", "Commercial", 1),
   ("Health Net", "Commercial", 11/10),
   ("CareFirst", "Commercial", 9/10),
   ("Wellcare", "Commercial", 1),
   ("Tricare", "Commercial", 9/10),
   ("Optum", "Commercial", 11/10),
   ("CVS Caremark", "Commercial", 1),
   ("Self-Pay", "Self-Pay", 7/10),
   ("Workers Compensation", "Workers Comp", 12/10)]

/-- The `high_denial_procedures` list. -/
def high_denial_procedures : List String :=
  ["70450", "93000", "45378", "77067", "96372", "97110", "99284", "99244",
   "45380", "77066"]

/-- `submission_lag_days` from `generate_claims`. -/
def submission_lag_days : List ℕ := [1, 2, 3, 5, 7, 10, 14, 21, 30, 45, 60, 90]

/-- `submission_lag_weights` from `generate_claims`. -/
def submission_lag_weights : List ℚ :=
  [15/100, 15/100, 15/100, 10/100, 10/100, 10/100, 5/100, 5/100, 5/100,
   5/100, 3/100, 2/100]

/-- `CONFIG["denial_reason_distribution"]`. -/
def denial_reason_distribution : List (String × ℚ) :=
  [("other", 34/100), ("administrative", 18/100), ("excluded_service", 16/100),
   ("no_prior_auth", 9/100), ("not_medically_necessary", 6/100),
   ("remaining", 17/100)]

/-- The per-code `denial_reason_weights` map built at the top of
`generate_claims`: each category's configured share divided evenly across
its member codes, in `denial_categories` order. -/
def denial_reason_weights : List (String × ℚ) :=
  denial_categories.flatMap (fun p =>
    p.2.map (fun code =>
      (code, lookupD denial_reason_distribution p.1 0 / (p.2.length : ℚ))))

/-- The timely-filing limits sampled per claim (and per payer):
`random.choice([30, 60, 90, 120, 180, 365])`. -/
def timely_filing_options : List ℕ := [30, 60, 90, 120, 180, 365]

end Claude

namespace Claude

/-- Static configuration (`CONFIG`), restricted to the fields the model
reads.  `total_claims` is the value computed at startup from
`claims_per_year` and the date range. -/
structure Config where
  num_patients : ℕ
  num_providers : ℕ
  num_payers : ℕ
  total_claims : ℕ
  start_date : ℤ
  end_date : ℤ
  overall_denial_rate : ℚ

/-- The shipped `CONFIG`: 2022-01-01 (day 0) through 2024-12-31 (day 1095),
three years of 500k claims. -/
def default_config : Config :=
  { num_patients := 2000000
    num_providers := 65000
    num_payers := 20
    total_claims := 1500000
    start_date := 0
    end_date := 1095
    overall_denial_rate := 19/100 }

/-- A patient row (faker-backed address/contact columns omitted; the name,
date-of-birth and membership-number columns are opaque outputs of the
seeded faker source). -/
structure Patient where
  patient_id : String
  first_name : String
  last_name : String
  dob : ℤ
  gender : String
  insurance_id : String
  membership_id : String
  chronic_conditions : Option String
deriving Repr, DecidableEq

/-- Per-patient random draws of `generate_patients`. -/
structure PatientDraws where
  genderIdx : ℕ → ℕ
  firstNameMale : ℕ → String
  firstNameFemale : ℕ → String
  lastName : ℕ → String
  dobDay : ℕ → ℤ
  insRand : ℕ → ℕ
  membership : ℕ → String
  condCountU : ℕ → ℚ
  condIdx : ℕ → ℕ → ℕ

/-- `generate_patients`: the chunked loop produces exactly one row per
index `j < num_patients` (chunking only bounds memory), with
`patient_id = "P" + zfill8(j+1)`, gender-conditioned first name, and
`insurance_id = "INS" + zfill3(randint(1, num_payers))`.  Chronic-condition
count follows weights {0: 0.6, 1: 0.2, 2: 0.1, 3: 0.07, 4: 0.03};
`random.sample` without replacement is embedded as indexed selection (the
no-duplicates guarantee carries no weight in any claim below). -/
def generate_patients (num numPayers : ℕ) (d : PatientDraws) : List Patient :=
  (List.range num).map (fun j =>
    let gender := choiceL ["M", "F"] "M" (d.genderIdx j)
    { patient_id := "P" ++ zfill 8 (j + 1)
      first_name := if gender = "M" then d.firstNameMale j else d.firstNameFemale j
      last_name := d.lastName j
      dob := d.dobDay j
      gender := gender
      insurance_id := "INS" ++ zfill 3 (1 + d.insRand j % numPayers)
      membership_id := d.membership j
      chronic_conditions :=
        let n := weightedPick [(0, 6/10), (1, 2/10), (2, 1/10), (3, 7/100), (4, 3/100)] 0 (d.condCountU j)
        if n > 0 then
          some (String.intercalate ","
            ((List.range n).map (fun k => choiceL diagnosis_keys "E11.9" (d.condIdx j k))))
        else none })

/-- A provider row, restricted to the columns the claim synthesizer reads
(id, specialty with its modifier, network status). -/
structure Provider where
  provider_id : String
  specialty : String
  specialty_denial_modifier : ℚ
  network_status : String
deriving Repr, DecidableEq

/-- Per-provider random draws of `generate_providers`. -/
structure ProviderDraws where
  specIdx : ℕ → ℕ
  netIdx : ℕ → ℕ

/-- `generate_providers`: `provider_id = "DR" + zfill7(i+1)`, specialty via
`random.choice(specialties)`, network status via
`random.choice(['In-Network', 'Out-of-Network'])`. -/
def generate_providers (num : ℕ) (d : ProviderDraws) : List Provider :=
  (List.range num).map (fun i =>
    let spec := specialties.getD (d.specIdx i % specialties.length) ("Family Medicine", 9/10)
    { provider_id := "DR" ++ zfill 7 (i + 1)
      specialty := spec.1
      specialty_denial_modifier := spec.2
      network_status := choiceL ["In-Network", "Out-of-Network"] "In-Network" (d.netIdx i) })

/-- A payer row, restricted to the columns the claim synthesizer reads. -/
structure Payer where
  payer_id : String
  payer_name : String
  payer_type : String
  payer_denial_modifier : ℚ
  base_denial_rate : ℚ
  prior_auth_required_procedures : List String
  timely_filing_limit_days : ℕ
deriving Repr, DecidableEq

/-- Per-payer random draws of `generate_payers`. -/
structure PayerDraws where
  sampleIdx : ℕ → ℕ
  procCount : ℕ → ℕ
  procIdx : ℕ → ℕ → ℕ
  timelyIdx : ℕ → ℕ

/-- `generate_payers`: generates `min num_payers (length payer_info)` rows
(the clamp at line 413 of the source); `payer_id = "INS" + zfill3(i+1)`;
`base_denial_rate = round(overall_rate * payer_denial_modifier, 3)`;
prior-auth procedures are `randint(5, 15)` selections from the procedure
catalog (`random.sample` embedded as indexed selection; the source joins
them with commas and splits them again in `generate_claims`, an identity on
comma-free CPT codes, so the list is kept directly). -/
def generate_payers (numPayers : ℕ) (overallRate : ℚ) (d : PayerDraws) : List Payer :=
  (List.range (min numPayers payer_info.length)).map (fun i =>
    let prof := payer_info.getD (d.sampleIdx i % payer_info.length)
      ("Blue Cross Blue Shield", "Commercial", 1)
    { payer_id := "INS" ++ zfill 3 (i + 1)
      payer_name := prof.1
      payer_type := prof.2.1
      payer_denial_modifier := prof.2.2
      base_denial_rate := round3 (overallRate * prof.2.2)
      prior_auth_required_procedures :=
        (List.range (randintN 5 15 (d.procCount i))).map
          (fun k => choiceL procedure_keys "99213" (d.procIdx i k))
      timely_filing_limit_days := choiceL timely_filing_options 30 (d.timelyIdx i) })

end Claude

namespace Claude

/-- A claim row (description columns, which are catalog lookups of the code
columns, omitted). `claim_status` uses the shipped `"numeric"` encoding:
1 = DENIED, 0 = APPROVED (the other two encodings of the source differ only
in presentation). -/
structure Claim where
  claim_id : String
  patient_id : String
  provider_id : String
  payer_id : String
  service_date : ℤ
  submission_date : ℤ
  processing_date : ℤ
  primary_diagnosis_code : String
  secondary_diagnosis_code : Option String
  procedure_code : String
  revenue_code : Option String
  place_of_service_code : String
  prior_auth_required : Bool
  prior_auth_obtained : Bool
  charge_amount : ℚ
  claim_status : ℕ
  denial_reason_code : Option String
  payment_amount : Option ℚ
  patient_responsibility : ℚ
  claim_frequency : ℕ
  days_to_payment : Option ℤ
deriving Repr, DecidableEq

/-- The random draws consumed for one claim of `generate_claims`. -/
structure ClaimDraws where
  patientIdx : ℕ
  providerIdx : ℕ
  payerRand : ℕ
  serviceRand : ℕ
  lagU : ℚ
  primaryIdx : ℕ
  secondaryU : ℚ
  secondaryIdx : ℕ
  procIdx : ℕ
  posIdx : ℕ
  revenueU : ℚ
  revenueIdx : ℕ
  authObtainedU : ℚ
  baseChargeU : ℚ
  hospU : ℚ
  timelyIdx : ℕ
  denialU : ℚ
  reasonAuthIdx : ℕ
  oonU : ℚ
  reasonExclIdx : ℕ
  reasonTimelyIdx : ℕ
  reasonWeightU : ℚ
  reimbU : ℚ
  procDaysRand : ℕ
  freqU : ℚ

/-- The sequential denial-probability composition of `generate_claims`
(lines 550-571): start from the payer base rate times the provider
specialty modifier, add the four risk increments in source order, then cap
at 0.95. -/
def claim_denial_prob (base provMod : ℚ)
    (noAuth outOfNetwork highProc lateFiling : Bool) : ℚ :=
  let p0 := base * provMod
  let p1 := if noAuth then p0 + 60/100 else p0
  let p2 := if outOfNetwork then p1 + 20/100 else p1
  let p3 := if highProc then p2 + 15/100 else p2
  let p4 := if lateFiling then p3 + 30/100 else p3
  min p4 (95/100)

/-- The ordered denial-reason attribution of `generate_claims`
(lines 585-597): prior-auth rule, then the out-of-network coin, then the
timely-filing fallback pair `["A4", "H1"]`, then the weighted draw over the
full catalog. -/
def select_denial_reason (authRequired authObtained outOfNetwork : Bool)
    (oonU : ℚ) (lag timelyLimit : ℕ)
    (aIdx eIdx tIdx : ℕ) (wU : ℚ) : String :=
  if authRequired && !authObtained then
    choiceL ["C1", "C2", "C3", "C4"] "C1" aIdx
  else if outOfNetwork && decide (oonU < 50/100) then
    choiceL ["B1", "B2", "B3", "B4", "B5", "B6", "B7", "B8"] "B1" eIdx
  else if lag > timelyLimit then
    choiceL ["A4", "H1"] "A4" tIdx
  else
    weightedPick denial_reason_weights "A1" wU

/-- The loop body of `generate_claims` for claim index `i`.  The lookup
tables are the dicts the source builds by zipping the generated payer and
provider frames (`payer_base_denial_rates`, `payer_prior_auth_lists`,
`provider_denial_modifiers`, `provider_network_status`); `patientIds` and
`providerIds` are the id columns of the generated frames.  The source
re-derives `is_denied` from the formatted status at the payment and
days-to-payment steps; with a fixed status encoding that is the original
Boolean, which is used directly here. -/
def generate_claim (numPayers : ℕ) (overallRate : ℚ) (startD endD : ℤ)
    (payerRates : List (String × ℚ)) (payerAuth : List (String × List String))
    (provMods : List (String × ℚ)) (provNets : List (String × String))
    (patientIds providerIds : List String)
    (i : ℕ) (d : ClaimDraws) : Claim :=
  let patientId := choiceL patientIds "" d.patientIdx
  let providerId := choiceL providerIds "" d.providerIdx
  let payerId := "INS" ++ zfill 3 (1 + d.payerRand % numPayers)
  let daysInRange := endD - startD
  let serviceDate := startD + randintZ 0 daysInRange d.serviceRand
  let lag := weightedPick (submission_lag_days.zip submission_lag_weights) 1 d.lagU
  let submissionDate := min (serviceDate + (lag : ℤ)) endD
  let primary := choiceL diagnosis_keys "E11.9" d.primaryIdx
  let hasSecondary := d.secondaryU < 40/100
  let secondary := if hasSecondary then some (choiceL diagnosis_keys "E11.9" d.secondaryIdx) else none
  let procedureCode := choiceL procedure_keys "99213" d.procIdx
  let pos := choiceL place_of_service_keys "11" d.posIdx
  let hasRevenue := d.revenueU < 70/100
  let revenue := if hasRevenue then some (choiceL revenue_keys "0120" d.revenueIdx) else none
  let payerAuthList := lookupD payerAuth payerId []
  let authRequired := payerAuthList.contains procedureCode
  let authObtained := authRequired && decide (d.authObtainedU < 85/100)
  let baseCharge := uniformQ 50 5000 d.baseChargeU
  let chargeRaw := if pos = "21" ∨ pos = "23" then baseCharge * uniformQ (15/10) 3 d.hospU else baseCharge
  let charge := round2 chargeRaw
  let baseProb := lookupD payerRates payerId overallRate
  let provModifier := lookupD provMods providerId 1
  let outOfNetwork := lookupOpt provNets providerId == some "Out-of-Network"
  let timelyLimit := choiceL timely_filing_options 30 d.timelyIdx
  let lateFiling := decide ((lag : ℚ) > (timelyLimit : ℚ) * (80/100))
  let prob := claim_denial_prob baseProb provModifier
    (authRequired && !authObtained) outOfNetwork
    (high_denial_procedures.contains procedureCode) lateFiling
  let isDenied := d.denialU < prob
  let reason := if isDenied then
      some (select_denial_reason authRequired authObtained outOfNetwork
        d.oonU lag timelyLimit d.reasonAuthIdx d.reasonExclIdx d.reasonTimelyIdx d.reasonWeightU)
    else none
  let payment := if isDenied then none
    else some (round2 (charge * uniformQ (50/100) (95/100) d.reimbU))
  let patientResp := if isDenied then charge else round2 (charge - (payment.getD 0))
  let processingRaw := submissionDate + ((randintN 3 30 d.procDaysRand : ℕ) : ℤ)
  let processingDate := if processingRaw > endD then endD else processingRaw
  { claim_id := "CLM" ++ zfill 10 (i + 1)
    patient_id := patientId
    provider_id := providerId
    payer_id := payerId
    service_date := serviceDate
    submission_date := submissionDate
    processing_date := processingDate
    primary_diagnosis_code := primary
    secondary_diagnosis_code := secondary
    procedure_code := procedureCode
    revenue_code := revenue
    place_of_service_code := pos
    prior_auth_required := authRequired
    prior_auth_obtained := authObtained
    charge_amount := charge
    claim_status := if isDenied then 1 else 0
    denial_reason_code := reason
    payment_amount := payment
    patient_responsibility := patientResp
    claim_frequency := weightedPick [(1, 85/100), (2, 10/100), (3, 5/100)] 1 d.freqU
    days_to_payment := if isDenied then none else some (processingDate - submissionDate) }

/-- The full generated dataset of one run. -/
structure Dataset where
  patients : List Patient
  providers : List Provider
  payers : List Payer
  claims : List Claim

/-- All randomness of one run: the per-entity draw records, as produced by
the single process-wide source seeded at startup (`random.seed(42)`,
`np.random.seed(42)`, `Faker.seed(42)`). -/
structure DrawSource where
  patients : PatientDraws
  providers : ProviderDraws
  payers : PayerDraws
  claims : ℕ → ClaimDraws

/-- `main`: generate the four frames; the claim synthesizer consumes the
lookup tables zipped from the payer and provider frames exactly as the
source does at lines 441-446. -/
def generateDataset (cfg : Config) (src : DrawSource) : Dataset :=
  let patients := generate_patients cfg.num_patients cfg.num_payers src.patients
  let providers := generate_providers cfg.num_providers src.providers
  let payers := generate_payers cfg.num_payers cfg.overall_denial_rate src.payers
  let payerRates := payers.map (fun p => (p.payer_id, p.base_denial_rate))
  let payerAuth := payers.map (fun p => (p.payer_id, p.prior_auth_required_procedures))
  let provMods := providers.map (fun p => (p.provider_id, p.specialty_denial_modifier))
  let provNets := providers.map (fun p => (p.provider_id, p.network_status))
  { patients := patients
    providers := providers
    payers := payers
    claims := (List.range cfg.total_claims).map (fun i =>
      generate_claim cfg.num_payers cfg.overall_denial_rate cfg.start_date cfg.end_date
        payerRates payerAuth provMods provNets
        (patients.map Patient.patient_id) (providers.map Provider.provider_id)
        i (src.claims i)) }

end Claude

namespace Gemini

/-!
Embedding of `generate-gemini-historical-insurance-claim-dataset.py` (the
module-level claim loop, lines 132-242).  Entity ids are sequential;
payer base rates are uniform draws held in `payer_denial_rates`; the loop
is embedded claim-by-claim with one draw record per iteration.
-/

/-- `denial_weights`, normalized to the per-reason probabilities used by
`np.random.choice` (shares divided by the total 100). -/
def gem_reason_weights : List (String × ℚ) :=
  [("OTHER", 34/100), ("ADMIN", 18/100), ("EXCLUDED", 16/100),
   ("NO_AUTH", 9/100), ("MED_NEC", 6/100), ("CODING_MISMATCH", 5/100),
   ("INCOMPLETE_DOCS", 5/100), ("TIMELY_FILING", 3/100), ("DUPLICATE", 2/100),
   ("ELIGIBILITY", 2/100)]

/-- `high_denial_specialties`. -/
def high_denial_specialties : List String :=
  ["Radiology", "Emergency Medicine", "Psychiatry", "General Surgery"]

/-- `cpt_codes` with their normalized weights (weights divided by the
total 100). -/
def cpt_code_weights : List (String × ℚ) :=
  [("99213", 20/100), ("99214", 18/100), ("99203", 10/100), ("99204", 8/100),
   ("99395", 5/100), ("99396", 5/100), ("85025", 7/100), ("80053", 6/100),
   ("71046", 4/100), ("36415", 3/100), ("99283", 5/100), ("99284", 4/100),
   ("99285", 2/100), ("90686", 2/100), ("90716", 1/100)]

/-- `icd10_codes` with their normalized weights (weights divided by the
total 90). -/
def icd10_code_weights : List (String × ℚ) :=
  [("E11.9", 15/90), ("I10", 12/90), ("J45.909", 8/90), ("R07.9", 10/90),
   ("M54.5", 7/90), ("G89.29", 6/90), ("N39.0", 5/90), ("Z00.00", 5/90),
   ("F41.9", 4/90), ("K21.9", 6/90), ("L20.9", 4/90), ("R51", 3/90),
   ("S06.0X0A", 3/90), ("T63.01XA", 1/90), ("Z12.39", 1/90)]

/-- The clamp at line 196: `max(0.01, min(p, 0.95))`. -/
def clamp_prob (p : ℚ) : ℚ := max (1/100) (min p (95/100))

/-- One generated claim row of the Gemini variant.  `paid_amount` is a
plain (never-null) float column, initialized to `0.0` and left at `0.0`
for denied claims. -/
structure GemClaim where
  claim_id : String
  patient_id : String
  provider_id : String
  payer_id : String
  provider_specialty : String
  date_of_service : ℤ
  claim_submission_date : ℤ
  submission_lag_days : ℕ
  cpt_code : String
  icd10_code : String
  claim_charge_amount : ℚ
  prior_authorization_obtained : Bool
  coding_mismatch_flag : Bool
  documentation_incomplete_flag : Bool
  claim_status : ℕ
  denial_reason_code : Option String
  paid_amount : ℚ
deriving Repr, DecidableEq

/-- The random draws consumed for one claim of the loop (the pre-sampled
arrays indexed at `i`, plus the in-loop `random` calls). -/
structure GemDraws where
  patientIdx : ℕ
  providerIdx : ℕ
  payerIdx : ℕ
  serviceRand : ℕ
  lagRand : ℕ
  cptU : ℚ
  icdU : ℚ
  chargeU : ℚ
  authU : ℚ
  codingU : ℚ
  docsU : ℚ
  reasonU : ℚ
  determinerU : ℚ
  override0 : ℚ
  override1 : ℚ
  paidPctU : ℚ
  overrideCoinU : ℚ

/-- The denial-probability composition of the loop (lines 164-196, without
the final clamp): payer base rate, the prior-auth escalation capped at 0.90,
then the multiplicative specialty, coding-mismatch, documentation and
submission-lag factors in source order. -/
def gem_denial_prob (payerRate : ℚ) (provSpecialty : String) (lag : ℕ)
    (authObtained codingMismatch docsIncomplete : Bool) : ℚ :=
  let p1 := if !authObtained then min (payerRate * (35/10)) (90/100) else payerRate
  let p2 := if high_denial_specialties.contains provSpecialty then p1 * (14/10) else p1
  let p3 := if codingMismatch then p2 * (18/10) else p2
  let p4 := if docsIncomplete then p3 * (17/10) else p3
  if lag > 20 then p4 * (105/100) else if lag > 10 then p4 * (102/100) else p4

/-- The `denial_reason_override` chain of the loop (lines 168-187): the
first triggered factor wins. -/
def gem_reason_override (authObtained codingMismatch docsIncomplete : Bool)
    (ov0 ov1 : ℚ) : Option String :=
  let o1 : Option String := if !authObtained then some "NO_AUTH" else none
  let o2 := if codingMismatch && (o1 == none) && decide (ov0 < 70/100)
    then some "CODING_MISMATCH" else o1
  if docsIncomplete && (o2 == none) && decide (ov1 < 60/100)
    then some "INCOMPLETE_DOCS" else o2

/-- The loop body for claim index `i`.  `payerRate` is
`payer_denial_rates[payer_id]` and `provSpecialty` is
`provider_specialty_map[provider_id]`; `patientIds`, `providerIds`,
`payerIds` are the sequential id pools; `startD`/`endD` bound the date
range with `totalDays = endD - startD`. -/
def generate_gem_claim (startD endD : ℤ)
    (patientIds providerIds payerIds : List String)
    (payerRate : ℚ) (provSpecialty : String)
    (i : ℕ) (d : GemDraws) : GemClaim :=
  let patientId := choiceL patientIds "" d.patientIdx
  let providerId := choiceL providerIds "" d.providerIdx
  let payerId := choiceL payerIds "" d.payerIdx
  let dateOfService := startD + randintZ 0 (endD - startD) d.serviceRand
  let lag := randintN 1 30 d.lagRand
  let submissionDate := min (dateOfService + (lag : ℤ)) endD
  let cpt := weightedPick cpt_code_weights "99213" d.cptU
  let icd := weightedPick icd10_code_weights "E11.9" d.icdU
  let charge := round2 (uniformQ 50 5000 d.chargeU)
  let authObtained := d.authU > 15/100
  let codingMismatch := d.codingU < 8/100
  let docsIncomplete := d.docsU < 10/100
  let prob := clamp_prob (gem_denial_prob payerRate provSpecialty lag
    authObtained codingMismatch docsIncomplete)
  let isDenied := d.determinerU < prob
  let reasonChoice := weightedPick gem_reason_weights "OTHER" d.reasonU
  let reason := if isDenied then
      some (match gem_reason_override authObtained codingMismatch docsIncomplete
          d.override0 d.override1 with
        | some r => if d.overrideCoinU < 85/100 then r else reasonChoice
        | none => reasonChoice)
    else none
  let paid := if isDenied then 0 else round2 (charge * uniformQ (70/100) (95/100) d.paidPctU)
  { claim_id := "CLAIM_" ++ zfill 9 (i + 1)
    patient_id := patientId
    provider_id := providerId
    payer_id := payerId
    provider_specialty := provSpecialty
    date_of_service := dateOfService
    claim_submission_date := submissionDate
    submission_lag_days := lag
    cpt_code := cpt
    icd10_code := icd
    claim_charge_amount := charge
    prior_authorization_obtained := authObtained
    coding_mismatch_flag := codingMismatch
    documentation_incomplete_flag := docsIncomplete
    claim_status := if isDenied then 1 else 0
    denial_reason_code := reason
    paid_amount := paid }

end Gemini

/-!
Shared lemmas about the embedded generators.
-/

theorem round3_lb (x : ℚ) : x - 1/2000 < round3 x := by
  rw [round3, round_eq]
  have h := Int.sub_one_lt_floor (x * 1000 + 1 / 2)
  have : (x * 1000 + 1 / 2 - 1) / 1000 < ((⌊x * 1000 + 1 / 2⌋ : ℤ) : ℚ) / 1000 := by
    apply div_lt_div_of_pos_right h
    norm_num
  calc x - 1/2000 ≤ (x * 1000 + 1 / 2 - 1) / 1000 := by linarith
    _ < ((⌊x * 1000 + 1 / 2⌋ : ℤ) : ℚ) / 1000 := this

theorem lookupD_cases {α : Type} (l : List (String × α)) (k : String) (d : α) :
    lookupD l k d = d ∨ ∃ p ∈ l, lookupD l k d = p.2 := by
  rw [lookupD]
  cases hf : l.find? (fun p => p.1 == k) with
  | none => left; rfl
  | some p =>
      right
      exact ⟨p, List.mem_of_find?_eq_some hf, rfl⟩

/-- Every date triple produced by the timing steps of `generate_claims`
satisfies the ordering and horizon bounds. -/
theorem date_arith (s e lag k : ℤ) (h1 : 0 ≤ lag) (h2 : 0 ≤ k) (hs : s ≤ e) :
    s ≤ min (s + lag) e ∧
    min (s + lag) e ≤ (if min (s + lag) e + k > e then e else min (s + lag) e + k) ∧
    min (s + lag) e ≤ e ∧
    (if min (s + lag) e + k > e then e else min (s + lag) e + k) ≤ e := by
  split_ifs <;> omega

/-- Splitting a charge into payment and residual: the payment never exceeds
the charge and the reconstructed sum is exact to the cent. -/
theorem payment_split (charge rate : ℚ) (k : ℤ) (hk : charge = (k : ℚ) / 100)
    (hc : 49 ≤ charge) (hru : rate ≤ 19/20) :
    round2 (charge * rate) ≤ charge ∧
    |round2 (charge * rate) + round2 (charge - round2 (charge * rate)) - charge| ≤ 1/100 := by
  obtain ⟨m, hm⟩ := round2_cents (charge * rate)
  have h1 := round2_le (charge * rate)
  have h2 : charge * rate ≤ charge * (19/20) := mul_le_mul_of_nonneg_left hru (by linarith)
  constructor
  · linarith
  · have hdiff : charge - round2 (charge * rate) = ((k - m : ℤ) : ℚ) / 100 := by
      rw [hm, hk]; push_cast; ring
    rw [hdiff, round2_int_div, ← hdiff]
    have he : round2 (charge * rate) + (charge - round2 (charge * rate)) - charge = 0 := by ring
    rw [he]
    norm_num

namespace Claude

/-- Every denial-rate modifier in the payer profile table is at least 0.7
(the Self-Pay row). -/
theorem payer_info_modifier_lb :
    ∀ prof ∈ payer_info, (7:ℚ)/10 ≤ prof.2.2 := by
  intro prof hmem
  fin_cases hmem <;> norm_num

/-- Every specialty denial modifier lies in [0.8, 1.4]. -/
theorem specialties_modifier_bounds :
    ∀ s ∈ specialties, (4:ℚ)/5 ≤ s.2 ∧ s.2 ≤ 7/5 := by
  intro s hmem
  fin_cases hmem <;> norm_num

/-- At the shipped overall rate 0.19, every generated payer base denial
rate is at least 0.132 (the smallest profile modifier is 0.7, and
`round(0.19 * 0.7, 3) = 0.133`). -/
theorem generate_payers_rate_lb (n : ℕ) (pd : PayerDraws) :
    ∀ q ∈ generate_payers n (19/100) pd, (132:ℚ)/1000 ≤ q.base_denial_rate := by
  intro q hq
  simp only [generate_payers, List.mem_map] at hq
  obtain ⟨i, _, rfl⟩ := hq
  have hmem : payer_info.getD (pd.sampleIdx i % payer_info.length)
      ("Blue Cross Blue Shield", "Commercial", 1) ∈ payer_info := by
    have hlen : 0 < payer_info.length := by simp [payer_info]
    have hidx : pd.sampleIdx i % payer_info.length < payer_info.length := Nat.mod_lt _ hlen
    rw [List.getD_eq_getElem _ _ hidx]
    exact List.getElem_mem hidx
  have hmod := payer_info_modifier_lb _ hmem
  have := round3_lb ((19:ℚ)/100 *
    (payer_info.getD (pd.sampleIdx i % payer_info.length)
      ("Blue Cross Blue Shield", "Commercial", 1)).2.2)
  simp only
  nlinarith

/-- Every generated provider specialty modifier lies in [0.8, 1.4]. -/
theorem generate_providers_mod_bounds (n : ℕ) (vd : ProviderDraws) :
    ∀ p ∈ generate_providers n vd,
      (4:ℚ)/5 ≤ p.specialty_denial_modifier ∧ p.specialty_denial_modifier ≤ 7/5 := by
  intro p hp
  simp only [generate_providers, List.mem_map] at hp
  obtain ⟨i, _, rfl⟩ := hp
  have hmem : specialties.getD (vd.specIdx i % specialties.length) ("Family Medicine", 9/10)
      ∈ specialties := by
    have hlen : 0 < specialties.length := by simp [specialties]
    have hidx : vd.specIdx i % specialties.length < specialties.length := Nat.mod_lt _ hlen
    rw [List.getD_eq_getElem _ _ hidx]
    exact List.getElem_mem hidx
  exact specialties_modifier_bounds _ hmem

/-- The composed denial probability stays in [0.01, 0.95] whenever the base
rate is at least 0.132 and the specialty modifier at least 0.8 (as the
shipped catalogs guarantee): the additive modifiers only increase it and
the final step caps it at 0.95. -/
theorem claim_denial_prob_bounds (b m : ℚ) (a o hp lf : Bool)
    (hb : 132/1000 ≤ b) (hm1 : 4/5 ≤ m) :
    1/100 ≤ claim_denial_prob b m a o hp lf ∧ claim_denial_prob b m a o hp lf ≤ 95/100 := by
  have hbm : (132:ℚ)/1000 * (4/5) ≤ b * m :=
    mul_le_mul hb hm1 (by norm_num) (by linarith)
  refine ⟨?_, min_le_right _ _⟩
  cases a <;> cases o <;> cases hp <;> cases lf <;>
    · simp only [claim_denial_prob, if_true, if_false, Bool.false_eq_true, Bool.true_eq_false]
      exact le_min (by nlinarith) (by norm_num)

/-- Each of the four no-prior-auth codes belongs to the `no_prior_auth`
category. -/
theorem choice_no_prior_auth_category (i : ℕ) :
    category_for_denial_code (choiceL ["C1", "C2", "C3", "C4"] "C1" i) = some "no_prior_auth" := by
  have h4 : i % 4 < 4 := Nat.mod_lt _ (by norm_num)
  simp only [choiceL, List.length_cons, List.length_nil]
  interval_cases h : i % 4 <;> decide

/-- The keys of the per-code weight table are exactly the catalog codes. -/
theorem denial_reason_weights_keys :
    denial_reason_weights.map Prod.fst = denial_reason_keys := by rfl

/-- Any outcome of the ordered reason-attribution rules is either a catalog
code or the stray fallback code `"H1"`. -/
theorem select_denial_reason_mem (aR aO oon : Bool) (oonU : ℚ) (lag lim : ℕ)
    (aIdx eIdx tIdx : ℕ) (wU : ℚ) :
    select_denial_reason aR aO oon oonU lag lim aIdx eIdx tIdx wU ∈ denial_reason_keys
    ∨ select_denial_reason aR aO oon oonU lag lim aIdx eIdx tIdx wU = "H1" := by
  rw [select_denial_reason]
  split_ifs
  · left
    have h := choiceL_mem ["C1", "C2", "C3", "C4"] "C1" aIdx (by simp)
    exact (by decide : ∀ x ∈ ["C1", "C2", "C3", "C4"], x ∈ denial_reason_keys) _ h
  · left
    have h := choiceL_mem ["B1", "B2", "B3", "B4", "B5", "B6", "B7", "B8"] "B1" eIdx (by simp)
    exact (by decide : ∀ x ∈ ["B1", "B2", "B3", "B4", "B5", "B6", "B7", "B8"],
      x ∈ denial_reason_keys) _ h
  · have h2 : tIdx % 2 < 2 := Nat.mod_lt _ (by norm_num)
    simp only [choiceL, List.length_cons, List.length_nil]
    interval_cases h : tIdx % 2
    · left; decide
    · right; decide
  · left
    rw [← denial_reason_weights_keys]
    exact weightedPick_mem _ _ _ (by decide)

/-- The payer-id column produced by `generate_payers`. -/
theorem generate_payers_ids (n : ℕ) (rate : ℚ) (pd : PayerDraws) :
    (generate_payers n rate pd).map Payer.payer_id
      = (List.range (min n payer_info.length)).map (fun i => "INS" ++ zfill 3 (i + 1)) := by
  simp [generate_payers]

/-- A sampled payer id `INS{randint(1, n)}` resolves whenever the
configured count does not exceed the profile table. -/
theorem ins_id_mem (n r : ℕ) (h1 : 1 ≤ n) (h2 : n ≤ payer_info.length) :
    ("INS" ++ zfill 3 (1 + r % n))
      ∈ (List.range (min n payer_info.length)).map (fun i => "INS" ++ zfill 3 (i + 1)) := by
  rw [List.mem_map]
  refine ⟨r % n, ?_, ?_⟩
  · rw [List.mem_range, Nat.min_eq_left h2]
    exact Nat.mod_lt _ (by omega)
  · rw [Nat.add_comm]

end Claude

/-!
Claim theorems.
-/

/-- C1 (counterexample): a Gemini-variant claim generated denied carries a
denial-reason code AND the value `0.0` in the always-present `paid_amount`
column — the column is never absent, so presence of a payment field and
presence of a denial reason are not mutually exclusive as stated. -/
theorem c1_gemini_denied_paid_zero :
    let gc := Gemini.generate_gem_claim 0 1095 ["PAT_00000001"] ["PROV_00001"] ["PAYER_01"]
      (19/100) "Internal Medicine" 0
      ⟨0, 0, 0, 0, 0, 0, 0, 0, 0, 0, 0, 0, 0, 0, 0, 0, 0⟩
    gc.claim_status = 1 ∧ gc.denial_reason_code = some "NO_AUTH" ∧ gc.paid_amount = 0 := by
  refine ⟨?_, ?_, ?_⟩ <;>
    norm_num [Gemini.generate_gem_claim, Gemini.clamp_prob, Gemini.gem_denial_prob,
      Gemini.gem_reason_override, uniformQ, randintN, choiceL,
      weightedPick, Gemini.gem_reason_weights, Gemini.cpt_code_weights,
      Gemini.icd10_code_weights, zfill,
      (by decide : Gemini.high_denial_specialties.contains "Internal Medicine" = false),
      (by decide : ¬ ("Internal Medicine" ∈ Gemini.high_denial_specialties))]

/-- C1 (amended): in the Claude variant a payment amount is present (non-null)
exactly when no denial-reason code is present, as the claim states.  In the
Gemini variant the `paid_amount` column always holds a value — `0.0` for
denied claims — so the absence half of the claim holds only in the sense of
a zero amount: a positive paid amount is recorded exactly when no
denial-reason code is present, and a denied claim records `0.0`. -/
theorem c1_payment_presence_amended (numPayers : ℕ) (overallRate : ℚ) (startD endD : ℤ)
    (payerRates : List (String × ℚ)) (payerAuth : List (String × List String))
    (provMods : List (String × ℚ)) (provNets : List (String × String))
    (patientIds providerIds : List String) (i : ℕ) (d : Claude.ClaimDraws)
    (gStartD gEndD : ℤ) (gPatientIds gProviderIds gPayerIds : List String)
    (payerRate : ℚ) (provSpecialty : String) (gi : ℕ) (g : Gemini.GemDraws)
    (hc : 0 ≤ g.chargeU) (hp : 0 ≤ g.paidPctU) :
    (let c := Claude.generate_claim numPayers overallRate startD endD payerRates payerAuth
        provMods provNets patientIds providerIds i d
     (c.payment_amount ≠ none ↔ c.denial_reason_code = none))
    ∧ (let gc := Gemini.generate_gem_claim gStartD gEndD gPatientIds gProviderIds gPayerIds
        payerRate provSpecialty gi g
       (0 < gc.paid_amount ↔ gc.denial_reason_code = none)
       ∧ (gc.claim_status = 1 → gc.paid_amount = 0)) := by
  constructor
  · simp only [Claude.generate_claim]
    split <;> simp
  · have hcharge : 50 - 1/200 < round2 (uniformQ 50 5000 g.chargeU) := by
      have h1 : 50 ≤ uniformQ 50 5000 g.chargeU := by rw [uniformQ]; nlinarith
      have h2 := lt_round2 (uniformQ 50 5000 g.chargeU)
      linarith
    have hpct : 7/10 ≤ uniformQ (70/100) (95/100) g.paidPctU := by
      rw [uniformQ]; nlinarith
    simp only [Gemini.generate_gem_claim]
    split
    · refine ⟨?_, fun _ => rfl⟩
      simp
    · constructor
      · have hpos : 0 < round2 (round2 (uniformQ 50 5000 g.chargeU) *
            uniformQ (70/100) (95/100) g.paidPctU) := by
          apply round2_pos
          nlinarith
        simp [hpos]
      · intro h
        exact absurd h (by norm_num)

/-- C1 (witness): the amended equivalences at a concrete configuration. -/
theorem c1_payment_presence_amended_witness :
    (0:ℚ) ≤ 0 ∧
    ((let c := Claude.generate_claim 1 (19/100) 0 1095 [] [] [] [] [] [] 0
          ⟨0, 0, 0, 0, 0, 0, 0, 0, 0, 0, 0, 0, 0, 0, 0, 0, 0, 0, 0, 0, 0, 0, 0, 0, 0⟩
      (c.payment_amount ≠ none ↔ c.denial_reason_code = none))
     ∧ (let gc := Gemini.generate_gem_claim 0 1095 [] [] [] (19/100) "Internal Medicine" 0
            ⟨0, 0, 0, 0, 0, 0, 0, 0, 0, 0, 0, 0, 0, 0, 0, 0, 0⟩
        (0 < gc.paid_amount ↔ gc.denial_reason_code = none)
        ∧ (gc.claim_status = 1 → gc.paid_amount = 0))) :=
  ⟨le_refl 0,
   c1_payment_presence_amended 1 (19/100) 0 1095 [] [] [] [] [] [] 0
     ⟨0, 0, 0, 0, 0, 0, 0, 0, 0, 0, 0, 0, 0, 0, 0, 0, 0, 0, 0, 0, 0, 0, 0, 0, 0⟩
     0 1095 [] [] [] (19/100) "Internal Medicine" 0
     ⟨0, 0, 0, 0, 0, 0, 0, 0, 0, 0, 0, 0, 0, 0, 0, 0, 0⟩
     (by norm_num) (by norm_num)⟩

/-- C2: the denial probability used by the claim synthesizer equals the
payer base rate times the provider specialty modifier plus 0.60 for a
missing required prior authorization, 0.20 for an out-of-network provider,
0.15 for a high-denial-risk procedure and 0.30 for a submission lag beyond
80 percent of the per-claim timely-filing limit, capped at 0.95; and a
generated claim is denied (status 1) exactly when the uniform draw is below
that composed probability. -/
theorem c2_denial_probability_composition (numPayers : ℕ) (overallRate : ℚ) (startD endD : ℤ)
    (payerRates : List (String × ℚ)) (payerAuth : List (String × List String))
    (provMods : List (String × ℚ)) (provNets : List (String × String))
    (patientIds providerIds : List String) (i : ℕ) (d : Claude.ClaimDraws)
    (base provMod : ℚ) (a o h l : Bool) :
    (Claude.claim_denial_prob base provMod a o h l
        = min (base * provMod + (if a then 60/100 else 0) + (if o then 20/100 else 0)
            + (if h then 15/100 else 0) + (if l then 30/100 else 0)) (95/100))
    ∧ (let c := Claude.generate_claim numPayers overallRate startD endD payerRates payerAuth
          provMods provNets patientIds providerIds i d
       let lag := weightedPick (Claude.submission_lag_days.zip Claude.submission_lag_weights) 1 d.lagU
       let limit := choiceL Claude.timely_filing_options 30 d.timelyIdx
       (c.claim_status = 1 ↔ d.denialU <
          Claude.claim_denial_prob (lookupD payerRates c.payer_id overallRate)
            (lookupD provMods c.provider_id 1)
            (c.prior_auth_required && !c.prior_auth_obtained)
            (lookupOpt provNets c.provider_id == some "Out-of-Network")
            (Claude.high_denial_procedures.contains c.procedure_code)
            (decide ((lag : ℚ) > (limit : ℚ) * (80/100))))) := by
  constructor
  · cases a <;> cases o <;> cases h <;> cases l <;> simp [Claude.claim_denial_prob]
  · simp only [Claude.generate_claim]
    split <;> simp_all

/-- C3 (counterexample): the final adjustment of the Claude variant is a
pure cap at 0.95 with no lower clamp — applied to a probability below 0.01
it returns it unchanged, unlike the Gemini clamp, which raises it to 0.01.
Only the Gemini variant implements the two-sided clamp the claim
describes. -/
theorem c3_no_lower_clamp_counterexample :
    Claude.claim_denial_prob 0 0 false false false false = 0
    ∧ Claude.claim_denial_prob 0 0 false false false false < 1/100
    ∧ Gemini.clamp_prob 0 = 1/100 := by
  norm_num [Claude.claim_denial_prob, Gemini.clamp_prob, min_def, max_def]

/-- C3 (amended): the Bernoulli parameter actually used lies in
[0.01, 0.95] in both variants, but for different reasons: the Gemini
variant clamps every composed probability into [0.01, 0.95], while the
Claude variant only caps at 0.95 — its lower bound holds not by clamping
but because every payer base rate generated from the shipped catalog
(≥ 0.132) times every specialty modifier (≥ 0.8) already exceeds 0.01, the
defaults of the lookups included. -/
theorem c3_denial_prob_range_amended (numPayers numProviders : ℕ)
    (pd : Claude.PayerDraws) (vd : Claude.ProviderDraws)
    (payerId provId : String) (a o hp lf : Bool) (p : ℚ) :
    (1/100 ≤ Claude.claim_denial_prob
        (lookupD ((Claude.generate_payers numPayers (19/100) pd).map
          (fun q => (q.payer_id, q.base_denial_rate))) payerId (19/100))
        (lookupD ((Claude.generate_providers numProviders vd).map
          (fun q => (q.provider_id, q.specialty_denial_modifier))) provId 1)
        a o hp lf
     ∧ Claude.claim_denial_prob
        (lookupD ((Claude.generate_payers numPayers (19/100) pd).map
          (fun q => (q.payer_id, q.base_denial_rate))) payerId (19/100))
        (lookupD ((Claude.generate_providers numProviders vd).map
          (fun q => (q.provider_id, q.specialty_denial_modifier))) provId 1)
        a o hp lf ≤ 95/100)
    ∧ (1/100 ≤ Gemini.clamp_prob p ∧ Gemini.clamp_prob p ≤ 95/100) := by
  constructor
  · have hb : (132:ℚ)/1000 ≤ lookupD ((Claude.generate_payers numPayers (19/100) pd).map
        (fun q => (q.payer_id, q.base_denial_rate))) payerId (19/100) := by
      rcases lookupD_cases ((Claude.generate_payers numPayers (19/100) pd).map
        (fun q => (q.payer_id, q.base_denial_rate))) payerId (19/100) with h | ⟨pr, hmem, heq⟩
      · rw [h]; norm_num
      · rw [heq]
        rw [List.mem_map] at hmem
        obtain ⟨q, hq, rfl⟩ := hmem
        exact Claude.generate_payers_rate_lb _ _ _ hq
    have hm : (4:ℚ)/5 ≤ lookupD ((Claude.generate_providers numProviders vd).map
        (fun q => (q.provider_id, q.specialty_denial_modifier))) provId 1 := by
      rcases lookupD_cases ((Claude.generate_providers numProviders vd).map
        (fun q => (q.provider_id, q.specialty_denial_modifier))) provId 1 with h | ⟨pr, hmem, heq⟩
      · rw [h]; norm_num
      · rw [heq]
        rw [List.mem_map] at hmem
        obtain ⟨q, hq, rfl⟩ := hmem
        exact (Claude.generate_providers_mod_bounds _ _ _ hq).1
    exact Claude.claim_denial_prob_bounds _ _ a o hp lf hb hm
  · exact ⟨le_max_left _ _, max_le (by norm_num) (min_le_right _ _)⟩

/-- C4: a denied claim whose procedure required prior authorization that
was not obtained always receives a reason code of the `no_prior_auth`
category — rule (a) of the attribution list is unconditional. -/
theorem c4_no_prior_auth_reason (numPayers : ℕ) (overallRate : ℚ) (startD endD : ℤ)
    (payerRates : List (String × ℚ)) (payerAuth : List (String × List String))
    (provMods : List (String × ℚ)) (provNets : List (String × String))
    (patientIds providerIds : List String) (i : ℕ) (d : Claude.ClaimDraws)
    (h1 : (Claude.generate_claim numPayers overallRate startD endD payerRates payerAuth
      provMods provNets patientIds providerIds i d).claim_status = 1)
    (h2 : (Claude.generate_claim numPayers overallRate startD endD payerRates payerAuth
      provMods provNets patientIds providerIds i d).prior_auth_required = true)
    (h3 : (Claude.generate_claim numPayers overallRate startD endD payerRates payerAuth
      provMods provNets patientIds providerIds i d).prior_auth_obtained = false) :
    ∃ r, (Claude.generate_claim numPayers overallRate startD endD payerRates payerAuth
      provMods provNets patientIds providerIds i d).denial_reason_code = some r ∧
      Claude.category_for_denial_code r = some "no_prior_auth" := by
  simp only [Claude.generate_claim] at h1 h2 h3 ⊢
  split
  · exact ⟨_, rfl, by
      rw [Claude.select_denial_reason, if_pos (by rw [h3, h2]; rfl)]
      exact Claude.choice_no_prior_auth_category _⟩
  · next hcond =>
      rw [if_neg hcond] at h1
      exact absurd h1 (by norm_num)

/-- C5: submission never precedes service, processing never precedes
submission, and both submission and processing are capped at the end of the
configured date range. -/
theorem c5_date_invariants (numPayers : ℕ) (overallRate : ℚ) (startD endD : ℤ)
    (payerRates : List (String × ℚ)) (payerAuth : List (String × List String))
    (provMods : List (String × ℚ)) (provNets : List (String × String))
    (patientIds providerIds : List String) (i : ℕ) (d : Claude.ClaimDraws)
    (hrange : startD ≤ endD) :
    let c := Claude.generate_claim numPayers overallRate startD endD payerRates payerAuth
      provMods provNets patientIds providerIds i d
    c.service_date ≤ c.submission_date ∧ c.submission_date ≤ c.processing_date ∧
      c.submission_date ≤ endD ∧ c.processing_date ≤ endD := by
  have hserv : startD + randintZ 0 (endD - startD) d.serviceRand ≤ endD := by
    have h3 : (d.serviceRand % ((endD - startD - 0 + 1).toNat) : ℕ) < (endD - startD + 1).toNat := by
      rw [show endD - startD - 0 + 1 = endD - startD + 1 by ring]
      exact Nat.mod_lt _ (by omega)
    simp only [randintZ]
    omega
  simp only [Claude.generate_claim]
  exact date_arith _ endD _ _ (Int.natCast_nonneg _) (Int.natCast_nonneg _) hserv

/-- C4 (witness): a concrete denied claim with required-but-missing prior
authorization receives a `no_prior_auth` reason code. -/
theorem c4_no_prior_auth_reason_witness :
    (Claude.generate_claim 1 (19/100) 0 1095 [] [("INS001", ["99213"])] [] [] ["P00000001"]
      ["DR0000001"] 0
      ⟨0, 0, 0, 0, 0, 0, 0, 0, 0, 0, 0, 0, 1, 0, 0, 0, 0, 0, 0, 0, 0, 0, 0, 0, 0⟩).claim_status = 1
    ∧ (Claude.generate_claim 1 (19/100) 0 1095 [] [("INS001", ["99213"])] [] [] ["P00000001"]
      ["DR0000001"] 0
      ⟨0, 0, 0, 0, 0, 0, 0, 0, 0, 0, 0, 0, 1, 0, 0, 0, 0, 0, 0, 0, 0, 0, 0, 0, 0⟩).prior_auth_required = true
    ∧ (Claude.generate_claim 1 (19/100) 0 1095 [] [("INS001", ["99213"])] [] [] ["P00000001"]
      ["DR0000001"] 0
      ⟨0, 0, 0, 0, 0, 0, 0, 0, 0, 0, 0, 0, 1, 0, 0, 0, 0, 0, 0, 0, 0, 0, 0, 0, 0⟩).prior_auth_obtained = false
    ∧ ∃ r, (Claude.generate_claim 1 (19/100) 0 1095 [] [("INS001", ["99213"])] [] [] ["P00000001"]
      ["DR0000001"] 0
      ⟨0, 0, 0, 0, 0, 0, 0, 0, 0, 0, 0, 0, 1, 0, 0, 0, 0, 0, 0, 0, 0, 0, 0, 0, 0⟩).denial_reason_code = some r ∧
      Claude.category_for_denial_code r = some "no_prior_auth" := by
  have hs : (Claude.generate_claim 1 (19/100) 0 1095 [] [("INS001", ["99213"])] [] [] ["P00000001"]
      ["DR0000001"] 0
      ⟨0, 0, 0, 0, 0, 0, 0, 0, 0, 0, 0, 0, 1, 0, 0, 0, 0, 0, 0, 0, 0, 0, 0, 0, 0⟩).claim_status = 1 ∧
      (Claude.generate_claim 1 (19/100) 0 1095 [] [("INS001", ["99213"])] [] [] ["P00000001"]
      ["DR0000001"] 0
      ⟨0, 0, 0, 0, 0, 0, 0, 0, 0, 0, 0, 0, 1, 0, 0, 0, 0, 0, 0, 0, 0, 0, 0, 0, 0⟩).prior_auth_required = true ∧
      (Claude.generate_claim 1 (19/100) 0 1095 [] [("INS001", ["99213"])] [] [] ["P00000001"]
      ["DR0000001"] 0
      ⟨0, 0, 0, 0, 0, 0, 0, 0, 0, 0, 0, 0, 1, 0, 0, 0, 0, 0, 0, 0, 0, 0, 0, 0, 0⟩).prior_auth_obtained = false := by
    refine ⟨?_, ?_, ?_⟩ <;>
      norm_num [Claude.generate_claim, Claude.claim_denial_prob,
        choiceL, lookupD, lookupOpt, weightedPick, randintZ, randintN, uniformQ,
        Claude.submission_lag_days, Claude.submission_lag_weights, Claude.timely_filing_options,
        Claude.procedure_keys, Claude.place_of_service_keys, Claude.diagnosis_keys,
        Claude.revenue_keys, List.find?,
        (by decide : ("INS" ++ zfill 3 (1 + 0 % 1) : String) = "INS001"),
        (by decide : (("INS001" : String) == "INS001") = true),
        (by decide : (["99213"].contains "99213") = true),
        (by decide : ("99213" ∈ (["99213"] : List String))),
        (by decide : Claude.high_denial_procedures.contains "99213" = false),
        (by decide : ¬ ("99213" ∈ Claude.high_denial_procedures))]
  exact ⟨hs.1, hs.2.1, hs.2.2,
    c4_no_prior_auth_reason 1 (19/100) 0 1095 [] [("INS001", ["99213"])] [] [] ["P00000001"]
      ["DR0000001"] 0
      ⟨0, 0, 0, 0, 0, 0, 0, 0, 0, 0, 0, 0, 1, 0, 0, 0, 0, 0, 0, 0, 0, 0, 0, 0, 0⟩
      hs.1 hs.2.1 hs.2.2⟩

/-- C5 (witness): the date invariants at the shipped date range. -/
theorem c5_date_invariants_witness :
    (0:ℤ) ≤ 1095 ∧
    (let c := Claude.generate_claim 20 (19/100) 0 1095 [] [] [] [] [] [] 0
        ⟨0, 0, 0, 0, 0, 0, 0, 0, 0, 0, 0, 0, 0, 0, 0, 0, 0, 0, 0, 0, 0, 0, 0, 0, 0⟩
     c.service_date ≤ c.submission_date ∧ c.submission_date ≤ c.processing_date ∧
       c.submission_date ≤ 1095 ∧ c.processing_date ≤ 1095) :=
  ⟨by norm_num,
   c5_date_invariants 20 (19/100) 0 1095 [] [] [] [] [] [] 0
     ⟨0, 0, 0, 0, 0, 0, 0, 0, 0, 0, 0, 0, 0, 0, 0, 0, 0, 0, 0, 0, 0, 0, 0, 0, 0⟩
     (by norm_num)⟩

/-- C6 (counterexample): a concrete denied claim attributed through the
timely-filing fallback carries the code `"H1"`, which is not a member of
the denial-reason catalog (its description lookup degrades to
`"Unknown reason"`). -/
theorem c6_h1_not_in_catalog_counterexample :
    (let c := Claude.generate_claim 1 (19/100) 0 1095 [] [] [] [] ["P00000001"] ["DR0000001"] 0
        ⟨0, 0, 0, 0, 99/100, 0, 0, 0, 0, 0, 0, 0, 0, 0, 0, 0, 0, 0, 0, 0, 1, 0, 0, 0, 0⟩
     c.claim_status = 1 ∧ c.denial_reason_code = some "H1")
    ∧ "H1" ∉ Claude.denial_reason_keys := by
  refine ⟨⟨?_, ?_⟩, by decide⟩ <;>
    norm_num [Claude.generate_claim, Claude.select_denial_reason, Claude.claim_denial_prob,
      choiceL, lookupD, lookupOpt, weightedPick, randintZ, randintN, uniformQ,
      Claude.submission_lag_days, Claude.submission_lag_weights, Claude.timely_filing_options,
      Claude.procedure_keys, Claude.place_of_service_keys, Claude.diagnosis_keys,
      Claude.revenue_keys, zfill,
      (by decide : Claude.high_denial_procedures.contains "99213" = false),
      (by decide : ¬ ("99213" ∈ Claude.high_denial_procedures))]

/-- C6 (amended): every denial-reason code attributed to a denied claim is
either a member of the denial-reason catalog or the code `"H1"`: rules (a),
(b) and (d) always draw catalog members, but the timely-filing fallback set
`{A4, H1}` is not a subset of the catalog — `H1` has no entry and no
category. -/
theorem c6_denial_reason_catalog_amended (aR aO oon : Bool) (oonU : ℚ) (lag lim : ℕ)
    (aIdx eIdx tIdx : ℕ) (wU : ℚ)
    (numPayers : ℕ) (overallRate : ℚ) (startD endD : ℤ)
    (payerRates : List (String × ℚ)) (payerAuth : List (String × List String))
    (provMods : List (String × ℚ)) (provNets : List (String × String))
    (patientIds providerIds : List String) (i : ℕ) (d : Claude.ClaimDraws) :
    (Claude.select_denial_reason aR aO oon oonU lag lim aIdx eIdx tIdx wU
        ∈ Claude.denial_reason_keys
     ∨ Claude.select_denial_reason aR aO oon oonU lag lim aIdx eIdx tIdx wU = "H1")
    ∧ ((Claude.generate_claim numPayers overallRate startD endD payerRates payerAuth
        provMods provNets patientIds providerIds i d).denial_reason_code = none
     ∨ ∃ r, (Claude.generate_claim numPayers overallRate startD endD payerRates payerAuth
        provMods provNets patientIds providerIds i d).denial_reason_code = some r
        ∧ (r ∈ Claude.denial_reason_keys ∨ r = "H1")) := by
  constructor
  · exact Claude.select_denial_reason_mem aR aO oon oonU lag lim aIdx eIdx tIdx wU
  · simp only [Claude.generate_claim]
    split
    · right
      exact ⟨_, rfl, Claude.select_denial_reason_mem _ _ _ _ _ _ _ _ _ _⟩
    · left
      rfl

/-- C7: every generated charge amount is strictly positive; an approved
claim carries a payment of at most the charge, and payment plus patient
responsibility reconstructs the charge within the 0.01 rounding tolerance;
a denied claim carries no payment and the full charge as patient
responsibility. -/
theorem c7_amount_invariants (numPayers : ℕ) (overallRate : ℚ) (startD endD : ℤ)
    (payerRates : List (String × ℚ)) (payerAuth : List (String × List String))
    (provMods : List (String × ℚ)) (provNets : List (String × String))
    (patientIds providerIds : List String) (i : ℕ) (d : Claude.ClaimDraws)
    (hb : 0 ≤ d.baseChargeU) (hh : 0 ≤ d.hospU)
    (hr0 : 0 ≤ d.reimbU) (hr1 : d.reimbU < 1) :
    let c := Claude.generate_claim numPayers overallRate startD endD payerRates payerAuth
      provMods provNets patientIds providerIds i d
    0 < c.charge_amount ∧
    (c.claim_status = 0 → ∃ pay, c.payment_amount = some pay ∧ pay ≤ c.charge_amount ∧
      |pay + c.patient_responsibility - c.charge_amount| ≤ 1/100) ∧
    (c.claim_status = 1 → c.payment_amount = none ∧ c.patient_responsibility = c.charge_amount) := by
  have hraw : 50 ≤ (if choiceL Claude.place_of_service_keys "11" d.posIdx = "21" ∨
      choiceL Claude.place_of_service_keys "11" d.posIdx = "23" then
      uniformQ 50 5000 d.baseChargeU * uniformQ (15/10) 3 d.hospU
      else uniformQ 50 5000 d.baseChargeU) := by
    have hbase : 50 ≤ uniformQ 50 5000 d.baseChargeU := by rw [uniformQ]; nlinarith
    have hmult : 1 ≤ uniformQ (15/10) 3 d.hospU := by rw [uniformQ]; nlinarith
    split_ifs
    · nlinarith
    · exact hbase
  have hrate_ub : uniformQ (50/100) (95/100) d.reimbU ≤ 19/20 := by
    rw [uniformQ]; nlinarith
  simp only [Claude.generate_claim]
  refine ⟨?_, ?_, ?_⟩
  · exact round2_pos _ (by linarith)
  · intro h
    split at h
    · exact absurd h (by norm_num)
    · next hC =>
        simp only [if_neg hC, Option.getD_some]
        obtain ⟨k, hk⟩ := round2_cents (if choiceL Claude.place_of_service_keys "11" d.posIdx = "21" ∨
          choiceL Claude.place_of_service_keys "11" d.posIdx = "23" then
          uniformQ 50 5000 d.baseChargeU * uniformQ (15/10) 3 d.hospU
          else uniformQ 50 5000 d.baseChargeU)
        have hc49 : 49 ≤ round2 (if choiceL Claude.place_of_service_keys "11" d.posIdx = "21" ∨
            choiceL Claude.place_of_service_keys "11" d.posIdx = "23" then
            uniformQ 50 5000 d.baseChargeU * uniformQ (15/10) 3 d.hospU
            else uniformQ 50 5000 d.baseChargeU) := by
          have := lt_round2 (if choiceL Claude.place_of_service_keys "11" d.posIdx = "21" ∨
            choiceL Claude.place_of_service_keys "11" d.posIdx = "23" then
            uniformQ 50 5000 d.baseChargeU * uniformQ (15/10) 3 d.hospU
            else uniformQ 50 5000 d.baseChargeU)
          linarith
        obtain ⟨hp1, hp2⟩ := payment_split _ (uniformQ (50/100) (95/100) d.reimbU) k hk hc49 hrate_ub
        exact ⟨_, rfl, hp1, hp2⟩
  · intro h
    split at h
    · next hC =>
        simp only [if_pos hC]
        exact ⟨trivial, trivial⟩
    · exact absurd h (by norm_num)

/-- C7 (witness): the amount invariants at a concrete configuration. -/
theorem c7_amount_invariants_witness :
    (0:ℚ) ≤ 0 ∧ (0:ℚ) < 1 ∧
    (let c := Claude.generate_claim 20 (19/100) 0 1095 [] [] [] [] [] [] 0
        ⟨0, 0, 0, 0, 0, 0, 0, 0, 0, 0, 0, 0, 0, 0, 0, 0, 0, 0, 0, 0, 0, 0, 0, 0, 0⟩
     0 < c.charge_amount ∧
     (c.claim_status = 0 → ∃ pay, c.payment_amount = some pay ∧ pay ≤ c.charge_amount ∧
       |pay + c.patient_responsibility - c.charge_amount| ≤ 1/100) ∧
     (c.claim_status = 1 → c.payment_amount = none ∧ c.patient_responsibility = c.charge_amount)) :=
  ⟨le_refl 0, by norm_num,
   c7_amount_invariants 20 (19/100) 0 1095 [] [] [] [] [] [] 0
     ⟨0, 0, 0, 0, 0, 0, 0, 0, 0, 0, 0, 0, 0, 0, 0, 0, 0, 0, 0, 0, 0, 0, 0, 0, 0⟩
     (le_refl 0) (le_refl 0) (le_refl 0) (by norm_num)⟩

/-- C8: the generator is a deterministic function of the configuration and
the seeded random source — two runs over the same seed-derived draws and
the same configuration produce the identical dataset (all four frames).
The embedding threads every random quantity through the single
`DrawSource`, mirroring the single process-wide generator seeded at
startup; no other input exists. -/
theorem c8_generator_deterministic (cfg : Claude.Config) (s1 s2 : Claude.DrawSource)
    (h : s1 = s2) :
    Claude.generateDataset cfg s1 = Claude.generateDataset cfg s2 := by
  rw [h]

/-- C8 (witness): two runs at the shipped configuration over the same
draw source. -/
theorem c8_generator_deterministic_witness :
    Claude.generateDataset Claude.default_config
      ⟨⟨fun _ => 0, fun _ => "", fun _ => "", fun _ => "", fun _ => 0, fun _ => 0, fun _ => "",
        fun _ => 0, fun _ _ => 0⟩,
       ⟨fun _ => 0, fun _ => 0⟩,
       ⟨fun _ => 0, fun _ => 0, fun _ _ => 0, fun _ => 0⟩,
       fun _ => ⟨0, 0, 0, 0, 0, 0, 0, 0, 0, 0, 0, 0, 0, 0, 0, 0, 0, 0, 0, 0, 0, 0, 0, 0, 0⟩⟩
    = Claude.generateDataset Claude.default_config
      ⟨⟨fun _ => 0, fun _ => "", fun _ => "", fun _ => "", fun _ => 0, fun _ => 0, fun _ => "",
        fun _ => 0, fun _ _ => 0⟩,
       ⟨fun _ => 0, fun _ => 0⟩,
       ⟨fun _ => 0, fun _ => 0, fun _ _ => 0, fun _ => 0⟩,
       fun _ => ⟨0, 0, 0, 0, 0, 0, 0, 0, 0, 0, 0, 0, 0, 0, 0, 0, 0, 0, 0, 0, 0, 0, 0, 0, 0⟩⟩ :=
  c8_generator_deterministic Claude.default_config _ _ rfl

/-- C9 (counterexample): with 21 configured payers (a configuration the
generator accepts — the payer generator silently clamps to its 20-entry
profile table) a claim can reference payer id `INS021`, which no generated
payer record carries. -/
theorem c9_payer_ref_counterexample :
    (Claude.generate_claim 21 (19/100) 0 1095 [] [] [] [] [] [] 0
      ⟨0, 0, 20, 0, 0, 0, 0, 0, 0, 0, 0, 0, 0, 0, 0, 0, 0, 0, 0, 0, 0, 0, 0, 0, 0⟩).payer_id
        = "INS021"
    ∧ "INS021" ∉ (Claude.generate_payers 21 (19/100)
        ⟨fun _ => 0, fun _ => 0, fun _ _ => 0, fun _ => 0⟩).map Claude.Payer.payer_id := by
  constructor
  · simp only [Claude.generate_claim]
    decide
  · rw [Claude.generate_payers_ids]
    decide

/-- C9 (amended): whenever the configured payer count is between 1 and the
size of the fixed payer profile table (20) — as in the shipped
configuration — every foreign reference of a generated claim (patient id,
provider id, payer id) and the payer assignment of every generated patient
resolve to a record generated in the same run.  For payer counts above 20
the resolution fails (see the counterexample): the payer generator clamps
to 20 records while claims and patients keep drawing ids up to the
configured count. -/
theorem c9_foreign_refs_amended (numPatients numProviders numPayers : ℕ)
    (ptd : Claude.PatientDraws) (vd : Claude.ProviderDraws) (pd : Claude.PayerDraws)
    (overallRate : ℚ) (startD endD : ℤ) (i : ℕ) (d : Claude.ClaimDraws)
    (h1 : 1 ≤ numPayers) (h2 : numPayers ≤ Claude.payer_info.length)
    (h3 : 1 ≤ numPatients) (h4 : 1 ≤ numProviders) :
    let patients := Claude.generate_patients numPatients numPayers ptd
    let providers := Claude.generate_providers numProviders vd
    let payers := Claude.generate_payers numPayers overallRate pd
    let c := Claude.generate_claim numPayers overallRate startD endD
      (payers.map (fun p => (p.payer_id, p.base_denial_rate)))
      (payers.map (fun p => (p.payer_id, p.prior_auth_required_procedures)))
      (providers.map (fun p => (p.provider_id, p.specialty_denial_modifier)))
      (providers.map (fun p => (p.provider_id, p.network_status)))
      (patients.map Claude.Patient.patient_id) (providers.map Claude.Provider.provider_id) i d
    c.patient_id ∈ patients.map Claude.Patient.patient_id
    ∧ c.provider_id ∈ providers.map Claude.Provider.provider_id
    ∧ c.payer_id ∈ payers.map Claude.Payer.payer_id
    ∧ ∀ p ∈ patients, p.insurance_id ∈ payers.map Claude.Payer.payer_id := by
  refine ⟨?_, ?_, ?_, ?_⟩
  · show choiceL _ "" d.patientIdx ∈ _
    apply choiceL_mem
    simp [Claude.generate_patients]
    omega
  · show choiceL _ "" d.providerIdx ∈ _
    apply choiceL_mem
    simp [Claude.generate_providers]
    omega
  · show ("INS" ++ zfill 3 (1 + d.payerRand % numPayers)) ∈ _
    rw [Claude.generate_payers_ids]
    exact Claude.ins_id_mem _ _ h1 h2
  · intro p hp
    simp only [Claude.generate_patients, List.mem_map] at hp
    obtain ⟨j, _, rfl⟩ := hp
    rw [Claude.generate_payers_ids]
    exact Claude.ins_id_mem _ _ h1 h2

/-- C9 (witness): the amended resolution property at a small concrete
configuration (one patient, one provider, one payer). -/
theorem c9_foreign_refs_amended_witness :
    1 ≤ 1 ∧ 1 ≤ Claude.payer_info.length ∧
    (let patients := Claude.generate_patients 1 1
        ⟨fun _ => 0, fun _ => "", fun _ => "", fun _ => "", fun _ => 0, fun _ => 0, fun _ => "",
         fun _ => 0, fun _ _ => 0⟩
     let providers := Claude.generate_providers 1 ⟨fun _ => 0, fun _ => 0⟩
     let payers := Claude.generate_payers 1 (19/100) ⟨fun _ => 0, fun _ => 0, fun _ _ => 0, fun _ => 0⟩
     let c := Claude.generate_claim 1 (19/100) 0 1095
       (payers.map (fun p => (p.payer_id, p.base_denial_rate)))
       (payers.map (fun p => (p.payer_id, p.prior_auth_required_procedures)))
       (providers.map (fun p => (p.provider_id, p.specialty_denial_modifier)))
       (providers.map (fun p => (p.provider_id, p.network_status)))
       (patients.map Claude.Patient.patient_id) (providers.map Claude.Provider.provider_id) 0
       ⟨0, 0, 0, 0, 0, 0, 0, 0, 0, 0, 0, 0, 0, 0, 0, 0, 0, 0, 0, 0, 0, 0, 0, 0, 0⟩
     c.patient_id ∈ patients.map Claude.Patient.patient_id
     ∧ c.provider_id ∈ providers.map Claude.Provider.provider_id
     ∧ c.payer_id ∈ payers.map Claude.Payer.payer_id
     ∧ ∀ p ∈ patients, p.insurance_id ∈ payers.map Claude.Payer.payer_id) :=
  ⟨le_refl 1, by norm_num [Claude.payer_info],
   c9_foreign_refs_amended 1 1 1
     ⟨fun _ => 0, fun _ => "", fun _ => "", fun _ => "", fun _ => 0, fun _ => 0, fun _ => "",
      fun _ => 0, fun _ _ => 0⟩
     ⟨fun _ => 0, fun _ => 0⟩ ⟨fun _ => 0, fun _ => 0, fun _ _ => 0, fun _ => 0⟩
     (19/100) 0 1095 0
     ⟨0, 0, 0, 0, 0, 0, 0, 0, 0, 0, 0, 0, 0, 0, 0, 0, 0, 0, 0, 0, 0, 0, 0, 0, 0⟩
     (le_refl 1) (by norm_num [Claude.payer_info]) (le_refl 1) (le_refl 1)⟩

/-- C10: the secondary diagnosis, present exactly when the dedicated
uniform draw is below 0.4, is drawn from the diagnosis catalog by its own
index draw, independent of the primary-diagnosis draw; in particular a draw
exists on which the secondary diagnosis equals the primary diagnosis of the
same claim (no distinctness guarantee). -/
theorem c10_secondary_diagnosis (numPayers : ℕ) (overallRate : ℚ) (startD endD : ℤ)
    (payerRates : List (String × ℚ)) (payerAuth : List (String × List String))
    (provMods : List (String × ℚ)) (provNets : List (String × String))
    (patientIds providerIds : List String) (i : ℕ) (d : Claude.ClaimDraws) (j : ℕ) :
    (let c := Claude.generate_claim numPayers overallRate startD endD payerRates payerAuth
        provMods provNets patientIds providerIds i d
     ((Claude.generate_claim numPayers overallRate startD endD payerRates payerAuth
        provMods provNets patientIds providerIds i
        { d with primaryIdx := j }).secondary_diagnosis_code = c.secondary_diagnosis_code)
     ∧ (c.secondary_diagnosis_code ≠ none ↔ d.secondaryU < 40/100)
     ∧ (∀ r, c.secondary_diagnosis_code = some r → r ∈ Claude.diagnosis_keys))
    ∧ (let c0 := Claude.generate_claim numPayers overallRate startD endD payerRates payerAuth
        provMods provNets patientIds providerIds i
        ⟨0, 0, 0, 0, 0, 0, 0, 0, 0, 0, 0, 0, 0, 0, 0, 0, 0, 0, 0, 0, 0, 0, 0, 0, 0⟩
       c0.secondary_diagnosis_code = some c0.primary_diagnosis_code) := by
  refine ⟨⟨?_, ?_, ?_⟩, ?_⟩
  · simp only [Claude.generate_claim]
  · simp only [Claude.generate_claim]
    split <;> simp_all
  · intro r hr
    simp only [Claude.generate_claim] at hr
    split at hr
    · rw [Option.some_inj] at hr
      rw [← hr]
      exact choiceL_mem _ _ _ (by simp [Claude.diagnosis_keys])
    · exact absurd hr (by simp)
  · simp only [Claude.generate_claim]
    norm_num [choiceL, Claude.diagnosis_keys]
